import Mathlib

/-!
Shallow embedding of
`tensorflow/contrib/distributions/python/ops/distribution.py`:
the abstract base classes `BaseDistribution` and `Distribution`.

The file under verification builds symbolic graph nodes; it never executes
numeric kernels.  We model the substrate accordingly: a scalar is a small
symbolic expression (`Scalar`), a tensor is a shape together with a flat
data list, and the elementwise ops `math_ops.exp` / `math_ops.log` wrap
every element in the corresponding constructor.  `convert_to_tensor`
applied to an already-converted tensor is the identity, so the evaluation
methods below take a `Tensor` argument directly.

Python method dispatch is modelled by a record of optional overrides
(`DistConfig`): a `some f` field is a subclass override, a `none` field
means the base-class default body runs (the documented pattern of a
subclass whose method delegates to `super`).  The mutually recursive
defaults of `prob` and `log_prob` are given a fuel parameter modelling the
bounded Python call stack: exhausting it is `RecursionError`.
-/

namespace TFDist

/-- A symbolic scalar value flowing through the graph. -/
inductive Scalar where
  | lit : Int → Scalar
  | exp : Scalar → Scalar
  | log : Scalar → Scalar
deriving DecidableEq

/-- A tensor: a shape and the flat list of its elements. -/
structure Tensor where
  shape : List Nat
  data : List Scalar
deriving DecidableEq

/-- `math_ops.exp`: elementwise, shape preserved. -/
def Tensor.exp (t : Tensor) : Tensor := ⟨t.shape, t.data.map Scalar.exp⟩

/-- `math_ops.log`: elementwise, shape preserved. -/
def Tensor.log (t : Tensor) : Tensor := ⟨t.shape, t.data.map Scalar.log⟩

/-- The error outcomes the module can surface to a caller. -/
inductive DistError where
  | notImplemented : String → DistError
  | recursionError : DistError
  | shapeMismatch : DistError
deriving DecidableEq

/-- A `Distribution` subclass: optional overrides for each overridable
method, plus the abstract per-family data the claims need.  A `none`
override means the method body of the base class runs. -/
structure DistConfig where
  prob_override : Option (Tensor → Except DistError Tensor) := none
  log_prob_override : Option (Tensor → Except DistError Tensor) := none
  cdf_override : Option (Tensor → Except DistError Tensor) := none
  log_cdf_override : Option (Tensor → Except DistError Tensor) := none
  sample_n_override : Option (Nat → Option Nat → Except DistError Tensor) := none
  entropy_override : Option (Unit → Except DistError Tensor) := none
  mean_override : Option (Unit → Except DistError Tensor) := none
  mode_override : Option (Unit → Except DistError Tensor) := none
  std_override : Option (Unit → Except DistError Tensor) := none
  variance_override : Option (Unit → Except DistError Tensor) := none
  is_continuous : Bool := true
  batch_shape : List Nat := []
  event_shape : List Nat := []

mutual

/-- `BaseDistribution.prob`.  Default body:
`value = convert_to_tensor(value); return exp(self.log_prob(value))`.
The fuel models the bounded Python call stack. -/
def probCall (d : DistConfig) : Nat → Tensor → Except DistError Tensor
  | 0, _ => .error .recursionError
  | fuel + 1, v =>
    match d.prob_override with
    | some f => f v
    | none => (logProbCall d fuel v).map Tensor.exp

/-- `BaseDistribution.log_prob`.  Default body:
`value = convert_to_tensor(value); return log(self.prob(value))`. -/
def logProbCall (d : DistConfig) : Nat → Tensor → Except DistError Tensor
  | 0, _ => .error .recursionError
  | fuel + 1, v =>
    match d.log_prob_override with
    | some f => f v
    | none => (probCall d fuel v).map Tensor.log

end

/-- `Distribution.log_cdf`.  Default body raises
`NotImplementedError("log_cdf is not implemented")`. -/
def logCdfCall (d : DistConfig) (v : Tensor) : Except DistError Tensor :=
  match d.log_cdf_override with
  | some f => f v
  | none => .error (.notImplemented "log_cdf is not implemented")

/-- `Distribution.cdf`.  Default body:
`value = convert_to_tensor(value); return exp(self.log_cdf(value))`. -/
def cdfCall (d : DistConfig) (v : Tensor) : Except DistError Tensor :=
  match d.cdf_override with
  | some f => f v
  | none => (logCdfCall d v).map Tensor.exp

/-- `BaseDistribution.sample_n` (and `Distribution.sample_n`, which only
calls `super`).  Default body raises
`NotImplementedError("sample_n not implemented")`. -/
def sampleNCall (d : DistConfig) (n : Nat) (seed : Option Nat) :
    Except DistError Tensor :=
  match d.sample_n_override with
  | some f => f n seed
  | none => .error (.notImplemented "sample_n not implemented")

/-- `array_ops.reshape`: keeps the flat data, requires the element count to
match the new shape. -/
def reshape (t : Tensor) (newShape : List Nat) : Except DistError Tensor :=
  if t.data.length = newShape.prod then .ok ⟨newShape, t.data⟩
  else .error .shapeMismatch

/-- `BaseDistribution.sample` (and `Distribution.sample`, which only calls
`super`).  Default body: `total = reduce_prod(sample_shape);
samples = self.sample_n(total, seed);
output_shape = concat(0, [sample_shape, slice(shape(samples), [1], [-1])]);
return reshape(samples, output_shape)`.  The trailing `set_shape` call only
annotates static shape metadata consistent with the dynamic shape. -/
def sampleCall (d : DistConfig) (sampleShape : List Nat) (seed : Option Nat) :
    Except DistError Tensor :=
  (sampleNCall d sampleShape.prod seed).bind fun samples =>
    reshape samples (sampleShape ++ samples.shape.drop 1)

/-- `Distribution.entropy`.  Default body raises
`NotImplementedError("entropy not implemented")`. -/
def entropyCall (d : DistConfig) : Except DistError Tensor :=
  match d.entropy_override with
  | some f => f ()
  | none => .error (.notImplemented "entropy not implemented")

/-- `Distribution.mean`. -/
def meanCall (d : DistConfig) : Except DistError Tensor :=
  match d.mean_override with
  | some f => f ()
  | none => .error (.notImplemented "mean not implemented")

/-- `Distribution.mode`. -/
def modeCall (d : DistConfig) : Except DistError Tensor :=
  match d.mode_override with
  | some f => f ()
  | none => .error (.notImplemented "mode not implemented")

/-- `Distribution.std`. -/
def stdCall (d : DistConfig) : Except DistError Tensor :=
  match d.std_override with
  | some f => f ()
  | none => .error (.notImplemented "std not implemented")

/-- `Distribution.variance`. -/
def varianceCall (d : DistConfig) : Except DistError Tensor :=
  match d.variance_override with
  | some f => f ()
  | none => .error (.notImplemented "variance not implemented")

/-- `Distribution.log_pdf`: delegates to `log_prob` when `is_continuous`,
raises otherwise. -/
def logPdfCall (d : DistConfig) (fuel : Nat) (v : Tensor) :
    Except DistError Tensor :=
  if d.is_continuous then logProbCall d fuel v
  else .error
    (.notImplemented "log_pdf is not implemented for non-continuous distributions")

/-- `Distribution.pdf`: delegates to `prob` when `is_continuous`, raises
otherwise. -/
def pdfCall (d : DistConfig) (fuel : Nat) (v : Tensor) :
    Except DistError Tensor :=
  if d.is_continuous then probCall d fuel v
  else .error
    (.notImplemented "pdf is not implemented for non-continuous distributions")

/-- `Distribution.log_pmf`: raises when `is_continuous`, delegates to
`log_prob` otherwise. -/
def logPmfCall (d : DistConfig) (fuel : Nat) (v : Tensor) :
    Except DistError Tensor :=
  if d.is_continuous then
    .error (.notImplemented "log_pmf is not implemented for continuous distributions")
  else logProbCall d fuel v

/-- `Distribution.pmf`: raises when `is_continuous`, delegates to `prob`
otherwise. -/
def pmfCall (d : DistConfig) (fuel : Nat) (v : Tensor) :
    Except DistError Tensor :=
  if d.is_continuous then
    .error (.notImplemented "pmf is not implemented for continuous distributions")
  else probCall d fuel v

/-- Modelled from the spec: the broadcasting rule of the external array-op
substrate (not part of this source file) on reversed dimension lists —
align trailing dimensions, each pair must be equal or one of them 1,
missing leading dimensions count as 1. -/
def broadcastRevDims : List Nat → List Nat → Option (List Nat)
  | [], ys => some ys
  | x :: xs, [] => some (x :: xs)
  | x :: xs, y :: ys =>
    if x = y ∨ x = 1 ∨ y = 1 then
      (broadcastRevDims xs ys).map fun r => (if x = 1 then y else x) :: r
    else none

/-- Modelled from the spec: broadcast two shapes, `none` when they are not
broadcastable. -/
def broadcastDims (a b : List Nat) : Option (List Nat) :=
  (broadcastRevDims a.reverse b.reverse).map List.reverse

/-- Modelled from the spec: the shape contract of every evaluation method
(`prob`, `log_prob`, `cdf`, `log_cdf`) — the `value` shape is broadcast
against `batch_shape + event_shape` by the substrate ops; a value shape
that is not broadcastable fails with a shape-mismatch error. -/
def evalShapeCheck (d : DistConfig) (valueShape : List Nat) :
    Except DistError (List Nat) :=
  match broadcastDims valueShape (d.batch_shape ++ d.event_shape) with
  | some s => .ok s
  | none => .error .shapeMismatch

/-- A value tensor used in concrete instantiations. -/
def vEx : Tensor := ⟨[2], [Scalar.lit 3, Scalar.lit 4]⟩

/-- A result tensor used in concrete instantiations. -/
def tEx : Tensor := ⟨[2], [Scalar.lit 0, Scalar.lit 1]⟩

/-- A second, distinct result tensor. -/
def tEx2 : Tensor := ⟨[2], [Scalar.lit 5, Scalar.lit 6]⟩

/-- A bare subclass: no method overridden. -/
def bareDist : DistConfig := {}

/-- A subclass that overrides `log_prob` but not `prob`. -/
def dLogProbOnly : DistConfig := { log_prob_override := some fun _ => .ok tEx }

/-- A subclass that overrides `prob` but not `log_prob`. -/
def dProbOnly : DistConfig := { prob_override := some fun _ => .ok tEx }

/-- A subclass that overrides `log_cdf` but not `cdf`. -/
def dLogCdfOnly : DistConfig := { log_cdf_override := some fun _ => .ok tEx }

/-- Claim C1: on a subclass that overrides `log_prob` but not `prob`, the
default `prob` returns exactly the elementwise `exp` of what `log_prob`
returns on the (converted) value. -/
theorem prob_default_is_exp_of_log_prob (d : DistConfig)
    (f : Tensor → Except DistError Tensor)
    (hp : d.prob_override = none) (hl : d.log_prob_override = some f)
    (fuel : Nat) (v : Tensor) :
    probCall d (fuel + 2) v = (logProbCall d (fuel + 2) v).map Tensor.exp := by
  simp [probCall, logProbCall, hp, hl]

/-- Witness for C1 at a concrete subclass and value. -/
theorem prob_default_is_exp_of_log_prob_witness :
    probCall dLogProbOnly 3 vEx = (logProbCall dLogProbOnly 3 vEx).map Tensor.exp :=
  prob_default_is_exp_of_log_prob dLogProbOnly (fun _ => .ok tEx) rfl rfl 1 vEx

/-- Claim C2: on a subclass that overrides `prob` but not `log_prob`, the
default `log_prob` returns exactly the elementwise `log` of what `prob`
returns on the (converted) value. -/
theorem log_prob_default_is_log_of_prob (d : DistConfig)
    (f : Tensor → Except DistError Tensor)
    (hl : d.log_prob_override = none) (hp : d.prob_override = some f)
    (fuel : Nat) (v : Tensor) :
    logProbCall d (fuel + 2) v = (probCall d (fuel + 2) v).map Tensor.log := by
  simp [probCall, logProbCall, hp, hl]

/-- Witness for C2 at a concrete subclass and value. -/
theorem log_prob_default_is_log_of_prob_witness :
    logProbCall dProbOnly 3 vEx = (probCall dProbOnly 3 vEx).map Tensor.log :=
  log_prob_default_is_log_of_prob dProbOnly (fun _ => .ok tEx) rfl rfl 1 vEx

/-- Claim C5: on a subclass that overrides `log_cdf` but not `cdf`, the
default `cdf` returns exactly the elementwise `exp` of what `log_cdf`
returns on the (converted) value. -/
theorem cdf_default_is_exp_of_log_cdf (d : DistConfig)
    (f : Tensor → Except DistError Tensor)
    (hc : d.cdf_override = none) (hl : d.log_cdf_override = some f)
    (v : Tensor) :
    cdfCall d v = (logCdfCall d v).map Tensor.exp := by
  simp [cdfCall, logCdfCall, hc, hl]

/-- Witness for C5 at a concrete subclass and value. -/
theorem cdf_default_is_exp_of_log_cdf_witness :
    cdfCall dLogCdfOnly vEx = (logCdfCall dLogCdfOnly vEx).map Tensor.exp :=
  cdf_default_is_exp_of_log_cdf dLogCdfOnly (fun _ => .ok tEx) rfl rfl vEx

/-- Claim C8: on a subclass that overrides neither `prob` nor `log_prob`,
the mutual default fallback never diverges and never returns a value:
whatever the available call-stack budget, both calls terminate in an error
surfaced to the caller (Python's `RecursionError` once the bounded stack
is exhausted). -/
theorem prob_log_prob_mutual_fallback_fails_loudly (d : DistConfig)
    (hp : d.prob_override = none) (hl : d.log_prob_override = none)
    (fuel : Nat) (v : Tensor) :
    probCall d fuel v = .error .recursionError ∧
    logProbCall d fuel v = .error .recursionError := by
  induction fuel with
  | zero => exact ⟨rfl, rfl⟩
  | succ n ih => simp [probCall, logProbCall, hp, hl, ih.1, ih.2, Except.map]

/-- Witness for C8 on the bare subclass. -/
theorem prob_log_prob_mutual_fallback_fails_loudly_witness :
    probCall bareDist 7 vEx = .error .recursionError ∧
    logProbCall bareDist 7 vEx = .error .recursionError :=
  prob_log_prob_mutual_fallback_fails_loudly bareDist rfl rfl 7 vEx

/-- Claim C10: on a subclass that overrides neither `cdf` nor `log_cdf`,
`cdf` fails with the NotImplemented error for every value, because its
default unconditionally calls `log_cdf`, whose default always raises. -/
theorem cdf_unoverridden_raises (d : DistConfig)
    (hc : d.cdf_override = none) (hl : d.log_cdf_override = none)
    (v : Tensor) :
    cdfCall d v = .error (.notImplemented "log_cdf is not implemented") := by
  simp [cdfCall, logCdfCall, hc, hl, Except.map]

/-- Witness for C10 on the bare subclass. -/
theorem cdf_unoverridden_raises_witness :
    cdfCall bareDist vEx = .error (.notImplemented "log_cdf is not implemented") :=
  cdf_unoverridden_raises bareDist rfl rfl vEx

/-- Claim C3: when the subclass supplies a `sample_n` honouring its shape
contract (`(n,) + batch_shape + event_shape`), the default `sample` calls
`sample_n(product sample_shape, seed)` and reshapes the leading dimension
into `sample_shape`, leaving the trailing dimensions and the data
untouched, so the result has shape
`sample_shape + batch_shape + event_shape`; `sample_shape = []` gives
`batch_shape + event_shape`. -/
theorem sample_default_reshapes_sample_n (d : DistConfig)
    (f : Nat → Option Nat → Except DistError Tensor)
    (sampleShape : List Nat) (seed : Option Nat) (t : Tensor)
    (hs : d.sample_n_override = some f)
    (ht : f sampleShape.prod seed = .ok t)
    (hshape : t.shape = sampleShape.prod :: (d.batch_shape ++ d.event_shape))
    (hlen : t.data.length = sampleShape.prod * (d.batch_shape ++ d.event_shape).prod) :
    sampleCall d sampleShape seed =
      .ok ⟨sampleShape ++ (d.batch_shape ++ d.event_shape), t.data⟩ := by
  have hdrop : t.shape.tail = d.batch_shape ++ d.event_shape := by
    simp [hshape]
  simp [sampleCall, sampleNCall, hs, ht, reshape, hdrop, hlen, List.prod_append,
    Except.bind]

/-- A subclass supplying a contract-honouring `sample_n` with
`batch_shape = [2]` and scalar events. -/
def dSample : DistConfig :=
  { sample_n_override :=
      some fun n _ => .ok ⟨[n, 2], List.replicate (n * 2) (Scalar.lit 0)⟩
    batch_shape := [2] }

/-- Witness for C3 at `sample_shape = [3, 2]`. -/
theorem sample_default_reshapes_sample_n_witness :
    sampleCall dSample [3, 2] none =
      .ok ⟨[3, 2] ++ (dSample.batch_shape ++ dSample.event_shape),
        (Tensor.mk [6, 2] (List.replicate 12 (Scalar.lit 0))).data⟩ :=
  sample_default_reshapes_sample_n dSample
    (fun n _ => .ok ⟨[n, 2], List.replicate (n * 2) (Scalar.lit 0)⟩)
    [3, 2] none ⟨[6, 2], List.replicate 12 (Scalar.lit 0)⟩
    rfl rfl rfl rfl

/-- Claim C4: on a bare subclass, `sample_n`, `log_cdf`, `entropy`, `mean`,
`mode`, `std` and `variance` each fail with a NotImplemented error for
every argument, and the error is the method's own raise, propagated
directly. -/
theorem unoverridden_methods_raise (d : DistConfig)
    (h1 : d.sample_n_override = none) (h2 : d.log_cdf_override = none)
    (h3 : d.entropy_override = none) (h4 : d.mean_override = none)
    (h5 : d.mode_override = none) (h6 : d.std_override = none)
    (h7 : d.variance_override = none) (n : Nat) (seed : Option Nat)
    (v : Tensor) :
    sampleNCall d n seed = .error (.notImplemented "sample_n not implemented") ∧
    logCdfCall d v = .error (.notImplemented "log_cdf is not implemented") ∧
    entropyCall d = .error (.notImplemented "entropy not implemented") ∧
    meanCall d = .error (.notImplemented "mean not implemented") ∧
    modeCall d = .error (.notImplemented "mode not implemented") ∧
    stdCall d = .error (.notImplemented "std not implemented") ∧
    varianceCall d = .error (.notImplemented "variance not implemented") := by
  simp [sampleNCall, logCdfCall, entropyCall, meanCall, modeCall, stdCall,
    varianceCall, h1, h2, h3, h4, h5, h6, h7]

/-- Witness for C4 on the bare subclass. -/
theorem unoverridden_methods_raise_witness :
    sampleNCall bareDist 5 none = .error (.notImplemented "sample_n not implemented") ∧
    logCdfCall bareDist vEx = .error (.notImplemented "log_cdf is not implemented") ∧
    entropyCall bareDist = .error (.notImplemented "entropy not implemented") ∧
    meanCall bareDist = .error (.notImplemented "mean not implemented") ∧
    modeCall bareDist = .error (.notImplemented "mode not implemented") ∧
    stdCall bareDist = .error (.notImplemented "std not implemented") ∧
    varianceCall bareDist = .error (.notImplemented "variance not implemented") :=
  unoverridden_methods_raise bareDist rfl rfl rfl rfl rfl rfl rfl 5 none vEx

/-- Claim C6: `pdf` and `log_pdf` return exactly `prob` / `log_prob` when
`is_continuous` is true, and both fail with the
"not implemented for non-continuous distributions" error otherwise. -/
theorem pdf_dispatch (d : DistConfig) (fuel : Nat) (v : Tensor) :
    (d.is_continuous = true →
      pdfCall d fuel v = probCall d fuel v ∧
      logPdfCall d fuel v = logProbCall d fuel v) ∧
    (d.is_continuous = false →
      pdfCall d fuel v =
        .error (.notImplemented "pdf is not implemented for non-continuous distributions") ∧
      logPdfCall d fuel v =
        .error (.notImplemented "log_pdf is not implemented for non-continuous distributions")) := by
  constructor
  · intro h
    simp [pdfCall, logPdfCall, h]
  · intro h
    simp [pdfCall, logPdfCall, h]

/-- A discrete (non-continuous) subclass overriding both `prob` and
`log_prob` with distinguishable results. -/
def dDiscrete : DistConfig :=
  { prob_override := some fun _ => .ok tEx
    log_prob_override := some fun _ => .ok tEx2
    is_continuous := false }

/-- Witness for C6 on the discrete subclass. -/
theorem pdf_dispatch_witness :
    pdfCall dDiscrete 3 vEx =
      .error (.notImplemented "pdf is not implemented for non-continuous distributions") ∧
    logPdfCall dDiscrete 3 vEx =
      .error (.notImplemented "log_pdf is not implemented for non-continuous distributions") :=
  (pdf_dispatch dDiscrete 3 vEx).2 rfl

/-- Counterexample to claim C7 as stated: on a non-continuous subclass
whose `prob` and `log_prob` overrides return different tensors, `pmf`
returns `prob`'s result, not `log_prob`'s. -/
theorem pmf_pairing_counterexample :
    pmfCall dDiscrete 3 vEx ≠ logProbCall dDiscrete 3 vEx := by
  simp [pmfCall, probCall, logProbCall, dDiscrete, tEx, tEx2]

/-- Claim C7 as amended: when `is_continuous` is false, `pmf` returns
exactly `prob`'s result and `log_pmf` exactly `log_prob`'s; when
`is_continuous` is true, both fail with the
"not implemented for continuous distributions" error. -/
theorem pmf_dispatch (d : DistConfig) (fuel : Nat) (v : Tensor) :
    (d.is_continuous = false →
      pmfCall d fuel v = probCall d fuel v ∧
      logPmfCall d fuel v = logProbCall d fuel v) ∧
    (d.is_continuous = true →
      pmfCall d fuel v =
        .error (.notImplemented "pmf is not implemented for continuous distributions") ∧
      logPmfCall d fuel v =
        .error (.notImplemented "log_pmf is not implemented for continuous distributions")) := by
  constructor
  · intro h
    simp [pmfCall, logPmfCall, h]
  · intro h
    simp [pmfCall, logPmfCall, h]

/-- Witness for the amended C7 on the discrete subclass. -/
theorem pmf_dispatch_witness :
    pmfCall dDiscrete 3 vEx = probCall dDiscrete 3 vEx ∧
    logPmfCall dDiscrete 3 vEx = logProbCall dDiscrete 3 vEx :=
  (pmf_dispatch dDiscrete 3 vEx).1 rfl

/-- Claim C9: a `value` shape that is not broadcastable against
`batch_shape + event_shape` makes the evaluation-method shape contract
fail with a shape-mismatch error, never a silent result: success happens
exactly on broadcastable shapes. -/
theorem nonbroadcastable_value_fails (d : DistConfig) (valueShape : List Nat)
    (h : broadcastDims valueShape (d.batch_shape ++ d.event_shape) = none) :
    evalShapeCheck d valueShape = .error .shapeMismatch ∧
    ∀ s, evalShapeCheck d valueShape ≠ .ok s := by
  refine ⟨?_, ?_⟩ <;> simp [evalShapeCheck, h]

/-- A subclass with `batch_shape = [2, 2]` and scalar events. -/
def dBatch22 : DistConfig := { batch_shape := [2, 2] }

/-- Witness for C9: shape `[3]` against batch shape `[2, 2]`. -/
theorem nonbroadcastable_value_fails_witness :
    evalShapeCheck dBatch22 [3] = .error .shapeMismatch ∧
    ∀ s, evalShapeCheck dBatch22 [3] ≠ .ok s :=
  nonbroadcastable_value_fails dBatch22 [3] (by decide)

end TFDist
